import Mathlib

/-!
Verification of the snap-microstack operator CLI (`sunbeam` package) against its
natural-language specification.  The Python source under `sunbeam/commands/` is
shallowly embedded: pure computations become Lean functions, the effectful step
runner becomes an explicit event-trace semantics, and fallible calls become
`Except` values.  The netifaces / glob environment that `configure.py` probes is
modelled as an explicit record so that the interface-selection functions are
ordinary total functions of it.
-/

namespace Sunbeam

/-! Part: Network interface model (`sunbeam/commands/configure.py`, lines 46-93)

`configure.py` queries the OS through `netifaces.interfaces()`,
`netifaces.ifaddresses(nic)` and two `glob.glob` calls (virtual NICs under
`/sys/devices/virtual/net`, bonds under `/proc/net/bonding`).  A `NetEnv`
packages exactly those observations. -/

/-- The address families `netifaces.ifaddresses` reports for one interface:
`AF_LINK` (MAC addresses), `AF_INET` (IPv4) and `AF_INET6` (IPv6) address
strings.  A family absent from the Python dict is the empty list. -/
structure IfAddrs where
  link : List String
  inet : List String
  inet6 : List String
deriving DecidableEq, Repr

/-- The OS-level observations `configure.py` makes: the interface list, the
per-interface addresses, the names globbed from `/sys/devices/virtual/net/*`
and the names globbed from `/proc/net/bonding/*`. -/
structure NetEnv where
  interfaces : List String
  ifaddresses : String → IfAddrs
  virtualNics : List String
  bonds : List String

/-- Lexicographic order on character lists by code point, the order Python's
`sorted` uses on `str`. -/
def charListLt : List Char → List Char → Bool
  | [], [] => false
  | [], _ :: _ => true
  | _ :: _, [] => false
  | a :: as, b :: bs => if a < b then true else if b < a then false else charListLt as bs

def strLe (a b : String) : Bool := ! charListLt b.toList a.toList

def insertSorted (x : String) : List String → List String
  | [] => [x]
  | y :: ys => if strLe x y then x :: y :: ys else y :: insertSorted x ys

/-- Python's `sorted` on a list of strings, as a structural insertion sort. -/
def sortedStrings : List String → List String
  | [] => []
  | x :: xs => insertSorted x (sortedStrings xs)

/-- Function `get_nic_macs` (configure.py:46-49): the sorted `AF_LINK` addresses of
`nic`. -/
def get_nic_macs (env : NetEnv) (nic : String) : List String :=
  sortedStrings ((env.ifaddresses nic).link)

/-- Function `is_configured` (configure.py:52-55): whether the interface has an IPv4 or
IPv6 address. -/
def is_configured (env : NetEnv) (nic : String) : Bool :=
  !(env.ifaddresses nic).inet.isEmpty || !(env.ifaddresses nic).inet6.isEmpty

/-- The `for nic in netifaces.interfaces()` loop body of `get_free_nics`
(configure.py:67-85), recursing over the remaining interfaces. -/
def freeNicLoop (env : NetEnv) (bond_macs : List String) : List String → List String
  | [] => []
  | nic :: rest =>
    if env.bonds.contains nic && ! is_configured env nic then
      nic :: freeNicLoop env bond_macs rest
    else
      let macs := get_nic_macs env nic
      if macs.any (fun m => bond_macs.contains m) then
        freeNicLoop env bond_macs rest
      else if env.virtualNics.contains nic then
        freeNicLoop env bond_macs rest
      else if is_configured env nic then
        freeNicLoop env bond_macs rest
      else
        nic :: freeNicLoop env bond_macs rest

/-- Function `get_free_nics` (configure.py:58-85): interfaces with no v4/v6 address,
keeping unconfigured bonds, dropping bond members (MAC shared with a bond) and
virtual interfaces. -/
def get_free_nics (env : NetEnv) : List String :=
  let bond_macs := env.bonds.flatMap (get_nic_macs env)
  freeNicLoop env bond_macs env.interfaces

/-- Function `get_free_nic` (configure.py:88-93): first free NIC, or `""` when none. -/
def get_free_nic (env : NetEnv) : String :=
  let nics := get_free_nics env
  if h : nics.length > 0 then nics.get ⟨0, h⟩ else ""

/-! Part: The unit-test fixture environment
(`tests/unit/sunbeam/conftest.py`, `nic_config` / `bond_config` / `pglob` /
`interfaces` fixtures). -/

/-- Behaviour of `netifaces.ifaddresses` as patched by the `ifaddresses` fixture: the union
of `nic_config` and `bond_config` from conftest.py. -/
def fixtureIfaddrs : String → IfAddrs
  | "eth0" => ⟨["eth0mac1", "eth0mac2"], ["10.0.0.1"], ["fe80::52eb:f6ff:fe5c:2300%eth0"]⟩
  | "eth1" => ⟨["eth1mac1", "eth1mac2"], ["10.0.0.2"], []⟩
  | "eth2" => ⟨["bond0mac1", "eth2mac2"], [], []⟩
  | "eth3" => ⟨["bond0mac1", "eth3mac2"], [], []⟩
  | "eth4" => ⟨["eth40mac1", "eth4mac2"], [], []⟩
  | "eth5" => ⟨["bond1mac1", "eth5mac2"], [], []⟩
  | "eth6" => ⟨["bond1mac1", "eth6mac2"], [], []⟩
  | "ovs-system" => ⟨["ovssysmac1"], [], []⟩
  | "bond0" => ⟨["bond0mac1", "bond0mac2"], [], []⟩
  | "bond1" => ⟨["bond1mac1", "bond1mac2"], ["10.0.0.19"], []⟩
  | _ => ⟨[], [], []⟩

/-- The fixture environment: `interfaces` returns the `nic_config` keys
followed by the `bond_config` keys; `pglob` reports ovs-system/bond0/bond1 as
virtual and bond0/bond1 as bonds. -/
def fixtureNetEnv : NetEnv where
  interfaces := ["eth0", "eth1", "eth2", "eth3", "eth4", "eth5", "eth6",
                 "ovs-system", "bond0", "bond1"]
  ifaddresses := fixtureIfaddrs
  virtualNics := ["ovs-system", "bond0", "bond1"]
  bonds := ["bond0", "bond1"]

/-! Part: Step/Result protocol and the configure runner
(`sunbeam/commands/configure.py`, lines 484-510)

`Result` and `ResultType` live in `sunbeam/jobs/common.py`, which is not part
of the sources here; they are modelled from the spec's data model ("Result:
{kind: Completed | Failed | Skipped, message: optional string}") and from
their uses in configure.py (`Result(ResultType.COMPLETED)`,
`Result(ResultType.FAILED, str(e))`, `result.result_type`,
`result.message`). -/

/-- Modelled from the spec: the result kind of `sunbeam/jobs/common.py`
(absent from the sources), "kind: Completed | Failed | Skipped". -/
inductive ResultType where
  | completed
  | failed
  | skipped
deriving DecidableEq, Repr

/-- Modelled from the spec: the Result record of `sunbeam/jobs/common.py`
(absent from the sources), "{kind: ..., message: optional string}"; `none` is
Python's default `message=None`. -/
structure StepResult where
  result_type : ResultType
  message : Option String := none
deriving DecidableEq, Repr

/-- The behaviour of one step as the runner loop observes it: whether
`has_prompts()` is true, what `is_skip()` returns, and the `Result` its
`run(status)` returns.  Each concrete `BaseStep` subclass of the plan is one
such record. -/
structure StepSpec where
  name : String
  description : String
  hasPrompts : Bool
  isSkip : Bool
  runResult : StepResult
deriving DecidableEq, Repr

/-- One observable action of the runner loop, tagged with the 0-based position
of the step it concerns: entering the `console.status` context, `status.stop()`,
`step.prompt(console)`, `status.start()`, the `step.is_skip()` call, the
`step.run(status)` call, and the final done/failed console prints. -/
inductive Event where
  | enterStatus : Nat → Event
  | stopStatus : Nat → Event
  | promptStep : Nat → Event
  | startStatus : Nat → Event
  | skipCheck : Nat → Event
  | runStep : Nat → Event
  | printDone : Nat → Event
  | printFailed : Nat → Event
deriving DecidableEq, Repr

/-- The step position an event concerns. -/
def Event.index : Event → Nat
  | .enterStatus i => i
  | .stopStatus i => i
  | .promptStep i => i
  | .startStatus i => i
  | .skipCheck i => i
  | .runStep i => i
  | .printDone i => i
  | .printFailed i => i

/-- The `for step in plan` loop of `configure` (configure.py:484-508), with
the current step's position threaded through.  It yields the trace of events
the loop performs and its outcome: `.ok ()` when every step completed or was
skipped, `.error result.message` for the `click.ClickException(result.message)`
raised at the first `FAILED` result. -/
def runSteps : List StepSpec → Nat → List Event × Except (Option String) Unit
  | [], _ => ([], .ok ())
  | s :: rest, i =>
    let promptEvs : List Event :=
      if s.hasPrompts then [.stopStatus i, .promptStep i, .startStatus i] else []
    let pre : List Event := .enterStatus i :: promptEvs ++ [.skipCheck i]
    if s.isSkip then
      let next := runSteps rest (i + 1)
      (pre ++ .printDone i :: next.1, next.2)
    else if s.runResult.result_type = .failed then
      (pre ++ [.runStep i, .printFailed i], .error s.runResult.message)
    else
      let next := runSteps rest (i + 1)
      (pre ++ .runStep i :: .printDone i :: next.1, next.2)

/-- The trace of `configure`'s step loop over a plan. -/
def runTrace (plan : List StepSpec) : List Event := (runSteps plan 0).1

/-- The outcome of `configure`'s step loop over a plan. -/
def runOutcome (plan : List StepSpec) : Except (Option String) Unit := (runSteps plan 0).2

/-- The exit-code behaviour of the click CLI framework around `configure`: a
`click.ClickException` terminates the process with its `exit_code`, which is 1;
normal return exits 0. -/
def clickExitCode : Except (Option String) Unit → Nat
  | .ok _ => 0
  | .error _ => 1

/-- A step the runner passes over without aborting: it is skipped, or its run
result is not `FAILED`. -/
def StepSpec.passes (s : StepSpec) : Prop :=
  s.isSkip = true ∨ s.runResult.result_type ≠ .failed

instance (s : StepSpec) : Decidable s.passes := by
  unfold StepSpec.passes; infer_instance

/-- Sample completing step (the behaviour of `TerraformInitStep` on success). -/
def sampleOkStep : StepSpec :=
  ⟨"init", "Initializing Terraform", false, false, ⟨.completed, none⟩⟩

/-- Sample failing step (the behaviour of `ConfigureCloudStep` when
`tfhelper.apply` raises `TerraformException`). -/
def sampleFailStep : StepSpec :=
  ⟨"configure", "Configuring OpenStack cloud", true, false,
   ⟨.failed, some "tf apply failed"⟩⟩

/-- Sample step placed after a failing one. -/
def sampleAfterStep : StepSpec :=
  ⟨"openrc", "Generating openrc", false, false, ⟨.completed, none⟩⟩

/-- Sample step that prompts and is then skipped. -/
def sampleSkipStep : StepSpec :=
  ⟨"skippable", "Skippable step", true, true, ⟨.completed, none⟩⟩

/-! Part: The `run` methods of the configure steps
(`UserOpenRCStep.run`, configure.py:239-261, and `ConfigureCloudStep.run`,
configure.py:428-435) -/

/-- The Python exceptions that can arise inside the steps' `run` bodies:
`subprocess.CalledProcessError` (from `subprocess.run(..., check=True)`),
`json.JSONDecodeError` (from `json.loads`), `TerraformException` (from
`tfhelper.apply`) and `OSError` (from `open`/`write`).  The payload is
Python's `str(e)`. -/
inductive PyExn where
  | calledProcessError (msg : String)
  | jsonDecodeError (msg : String)
  | terraformException (msg : String)
  | osError (msg : String)
deriving DecidableEq, Repr

/-- The `["value"]` entries of `terraform output -json` that
`UserOpenRCStep._print_openrc` and `_print_clouds_yaml` read. -/
structure TfOutput where
  OS_USERNAME : String
  OS_PASSWORD : String
  OS_USER_DOMAIN_NAME : String
  OS_PROJECT_DOMAIN_NAME : String
  OS_PROJECT_NAME : String
deriving DecidableEq, Repr

/-- The fallible calls `UserOpenRCStep.run` makes, each either succeeding or
raising a `PyExn`: the `terraform output -json` subprocess (stdout on
success), `json.loads` on that stdout, and the openrc / clouds.yaml file
writes. -/
structure UserOpenRCEnv where
  subprocessRun : Except PyExn String
  jsonLoads : String → Except PyExn TfOutput
  fileWrite : Except PyExn Unit

/-- The body of `UserOpenRCStep.run`'s `try` block (configure.py:240-258):
run the subprocess, parse its stdout, print/write openrc and clouds.yaml. -/
def userOpenRCBody (env : UserOpenRCEnv) : Except PyExn Unit := do
  let out ← env.subprocessRun
  let _tf ← env.jsonLoads out
  env.fileWrite

/-- Method `UserOpenRCStep.run` (configure.py:239-261): the `except
subprocess.CalledProcessError` clause turns exactly that exception into
`Result(FAILED, str(e))`; any other exception escapes `run`
(modelled as `.error`). -/
def UserOpenRCStep_run (env : UserOpenRCEnv) : Except PyExn StepResult :=
  match userOpenRCBody env with
  | .ok _ => .ok ⟨.completed, none⟩
  | .error (.calledProcessError m) => .ok ⟨.failed, some m⟩
  | .error e => .error e

/-- Method `ConfigureCloudStep.run` (configure.py:428-435): `tfhelper.apply()` under
`except TerraformException`, which becomes `Result(FAILED, str(e))`; any other
exception escapes `run`. -/
def ConfigureCloudStep_run (applyResult : Except PyExn Unit) :
    Except PyExn StepResult :=
  match applyResult with
  | .ok _ => .ok ⟨.completed, none⟩
  | .error (.terraformException m) => .ok ⟨.failed, some m⟩
  | .error e => .error e

/-- A `UserOpenRCEnv` in which the subprocess succeeds but its stdout is not
valid JSON, so `json.loads` raises `json.JSONDecodeError`. -/
def badJsonEnv : UserOpenRCEnv where
  subprocessRun := .ok "not json"
  jsonLoads := fun _ => .error (.jsonDecodeError "Expecting value: line 1 column 1 (char 0)")
  fileWrite := .ok ()

/-- A `UserOpenRCEnv` in which `subprocess.run(..., check=True)` raises
`CalledProcessError`. -/
def calledProcessErrorEnv : UserOpenRCEnv where
  subprocessRun := .error (.calledProcessError "Command terraform returned non-zero exit status 1.")
  jsonLoads := fun _ => .error (.jsonDecodeError "unused")
  fileWrite := .ok ()

/-! Part: Admin-credential retrieval (`_retrieve_admin_credentials`,
configure.py:193-219) -/

/-- The response object of the `get-admin-account` action on the `keystone`
application, as `_retrieve_admin_credentials` reads it with
`action_result.get(...)`: a missing key yields `none` (`return-code` is read
with default 0). -/
structure ActionResult where
  returnCode : Option Int
  username : Option String
  password : Option String
  publicEndpoint : Option String
  userDomainName : Option String
  projectDomainName : Option String
  projectName : Option String
  apiVersion : Option String
deriving DecidableEq, Repr

/-- Function `_retrieve_admin_credentials` (configure.py:193-219): raise
`click.ClickException` when `return-code` (default 0) exceeds 1, else return
the `OS_`-prefixed credential dict in its insertion order. -/
def retrieve_admin_credentials (a : ActionResult) :
    Except String (List (String × Option String)) :=
  if a.returnCode.getD 0 > 1 then
    .error "Unable to retrieve openrc from Keystone service"
  else
    .ok [("OS_USERNAME", a.username),
         ("OS_PASSWORD", a.password),
         ("OS_AUTH_URL", a.publicEndpoint),
         ("OS_USER_DOMAIN_NAME", a.userDomainName),
         ("OS_PROJECT_DOMAIN_NAME", a.projectDomainName),
         ("OS_PROJECT_NAME", a.projectName),
         ("OS_AUTH_VERSION", a.apiVersion),
         ("OS_IDENTITY_API_VERSION", a.apiVersion)]

/-- A sample successful `get-admin-account` response. -/
def sampleActionResult : ActionResult where
  returnCode := some 0
  username := some "admin"
  password := some "sekrit"
  publicEndpoint := some "http://10.0.0.5:5000"
  userDomainName := some "admin_domain"
  projectDomainName := some "admin_domain"
  projectName := some "admin"
  apiVersion := some "3"

/-! Part: Persisted-file permissions -/

/-- The mode passed to `os.fchmod` for the openrc file in
`UserOpenRCStep._print_openrc` (configure.py:278). -/
def openrcFileMode : Nat := 0o640

/-- The mode passed to `os.fchmod` for the clouds.yaml file in
`UserOpenRCStep._print_clouds_yaml` (configure.py:302). -/
def cloudsYamlFileMode : Nat := 0o640

/-- Modelled from the spec: `question_helper.write_answers`, the answer-bank
writer in `sunbeam/commands/question_helper.py`, is not among the sources
here; per the spec all persisted files are "written with
owner/group-restricted permissions", i.e. mode 0o640. -/
def answerBankFileMode : Nat := 0o640

/-- Modelled from the spec: `TerraformHelper.write_tfvars` in
`sunbeam/commands/terraform.py`, which writes `terraform.tfvars.json`, is not
among the sources here; per the spec all persisted files are "written with
owner/group-restricted permissions", i.e. mode 0o640. -/
def tfvarsFileMode : Nat := 0o640

/-- The permission modes of every file the program persists: the answer bank,
the Terraform variables JSON, the generated openrc and the generated
clouds.yaml. -/
def persistedFileModes : List Nat :=
  [answerBankFileMode, tfvarsFileMode, openrcFileMode, cloudsYamlFileMode]

/-! Part: openrc rendering (`UserOpenRCStep._print_openrc`,
configure.py:263-282) -/

/-- The f-string `_openrc` of `_print_openrc` (configure.py:265-273), with one
Lean append per interpolation hole. -/
def openrcText (auth_url auth_version : String) (tf : TfOutput) : String :=
  "# openrc for " ++ tf.OS_USERNAME ++ "\n" ++
  "export OS_AUTH_URL=" ++ auth_url ++ "\n" ++
  "export OS_USERNAME=" ++ tf.OS_USERNAME ++ "\n" ++
  "export OS_PASSWORD=" ++ tf.OS_PASSWORD ++ "\n" ++
  "export OS_USER_DOMAIN_NAME=" ++ tf.OS_USER_DOMAIN_NAME ++ "\n" ++
  "export OS_PROJECT_DOMAIN_NAME=" ++ tf.OS_PROJECT_DOMAIN_NAME ++ "\n" ++
  "export OS_PROJECT_NAME=" ++ tf.OS_PROJECT_NAME ++ "\n" ++
  "export OS_AUTH_VERSION=" ++ auth_version ++ "\n" ++
  "export OS_IDENTITY_API_VERSION=" ++ auth_version

/-- The export lines the spec expects in the generated openrc, in the
spec's order; written from the spec's words, to be compared with
`openrcText`. -/
def expectedOpenrcExports (auth_url auth_version : String) (tf : TfOutput) :
    List String :=
  ["export OS_AUTH_URL=" ++ auth_url,
   "export OS_USERNAME=" ++ tf.OS_USERNAME,
   "export OS_PASSWORD=" ++ tf.OS_PASSWORD,
   "export OS_USER_DOMAIN_NAME=" ++ tf.OS_USER_DOMAIN_NAME,
   "export OS_PROJECT_DOMAIN_NAME=" ++ tf.OS_PROJECT_DOMAIN_NAME,
   "export OS_PROJECT_NAME=" ++ tf.OS_PROJECT_NAME,
   "export OS_AUTH_VERSION=" ++ auth_version,
   "export OS_IDENTITY_API_VERSION=" ++ auth_version]

/-! Part: The launch command's final message (`launch`, launch.py:170) -/

/-- The final console message of `launch` (launch.py:170).  The Python string
literal has no `f` prefix, so nothing is interpolated: as a function of the
computed key path and allocated floating IP it is constant, with the
placeholder text left verbatim. -/
def launchAccessMessage (key_path floating_ip_address : String) : String :=
  "Access the instance with `ssh -i \x7bkey_path\x7d ubuntu@\x7bip.floating_ip_address\x7d"

end Sunbeam

namespace Sunbeam

/-- Every event the loop emits while positioned at step `i` or later concerns a
step position at least `i`. -/
theorem runSteps_index_ge (l : List StepSpec) (i : Nat) :
    ∀ e ∈ (runSteps l i).1, i ≤ e.index := by
  induction l generalizing i with
  | nil => intro e he; simp [runSteps] at he
  | cons s rest ih =>
    intro e he
    have htail : e ∈ (runSteps rest (i + 1)).1 → i ≤ e.index := fun h =>
      Nat.le_of_succ_le (ih (i + 1) e h)
    by_cases hs : s.isSkip <;> by_cases hp : s.hasPrompts <;>
      by_cases hf : s.runResult.result_type = ResultType.failed <;>
        simp [runSteps, hs, hp, hf] at he <;>
          casesm* _ ∨ _ <;>
            first
              | (subst he; simp [Event.index])
              | exact htail he
              | simp_all [Event.index]

/-- Unfolding of the loop at a skipped step: the prompt phase (when declared)
and the skip check happen, `done` is printed, `run` is not called, and the loop
proceeds to the next step with the same outcome. -/
theorem runSteps_skip (s : StepSpec) (rest : List StepSpec) (i : Nat)
    (hs : s.isSkip = true) :
    runSteps (s :: rest) i =
      ((Event.enterStatus i ::
          (if s.hasPrompts then
            [Event.stopStatus i, Event.promptStep i, Event.startStatus i]
          else []) ++ [Event.skipCheck i]) ++
        Event.printDone i :: (runSteps rest (i + 1)).1,
       (runSteps rest (i + 1)).2) := by
  simp [runSteps, hs]

/-- Unfolding of the loop at a non-skipped, non-failing step. -/
theorem runSteps_pass (s : StepSpec) (rest : List StepSpec) (i : Nat)
    (hs : s.isSkip = false) (hf : s.runResult.result_type ≠ ResultType.failed) :
    runSteps (s :: rest) i =
      ((Event.enterStatus i ::
          (if s.hasPrompts then
            [Event.stopStatus i, Event.promptStep i, Event.startStatus i]
          else []) ++ [Event.skipCheck i]) ++
        Event.runStep i :: Event.printDone i :: (runSteps rest (i + 1)).1,
       (runSteps rest (i + 1)).2) := by
  simp [runSteps, hs, hf]

/-- Unfolding of the loop at a non-skipped failing step: `failed` is printed
and the loop aborts with `ClickException(result.message)`. -/
theorem runSteps_fail (s : StepSpec) (rest : List StepSpec) (i : Nat)
    (hs : s.isSkip = false) (hf : s.runResult.result_type = ResultType.failed) :
    runSteps (s :: rest) i =
      ((Event.enterStatus i ::
          (if s.hasPrompts then
            [Event.stopStatus i, Event.promptStep i, Event.startStatus i]
          else []) ++ [Event.skipCheck i]) ++
        [Event.runStep i, Event.printFailed i],
       .error s.runResult.message) := by
  simp [runSteps, hs, hf]

/-- The loop positioned at step `i` never emits a `run` event for an earlier
position. -/
theorem runStep_not_mem_later (rest : List StepSpec) (i : Nat) :
    Event.runStep i ∉ (runSteps rest (i + 1)).1 := by
  intro h
  have := runSteps_index_ge rest (i + 1) _ h
  simp [Event.index] at this

/-- When every step before position `pre.length` passes and the step there
fails without being skipped, the loop aborts with that step's message and
emits no event about any later position. -/
theorem runSteps_halts_first_failure (pre : List StepSpec) (s : StepSpec)
    (post : List StepSpec) (i : Nat)
    (hpass : ∀ t ∈ pre, t.passes) (hs : s.isSkip = false)
    (hf : s.runResult.result_type = ResultType.failed) :
    (runSteps (pre ++ s :: post) i).2 = .error s.runResult.message ∧
    ∀ e ∈ (runSteps (pre ++ s :: post) i).1, e.index ≤ i + pre.length := by
  induction pre generalizing i with
  | nil =>
    rw [List.nil_append, runSteps_fail s post i hs hf]
    refine ⟨rfl, ?_⟩
    intro e he
    by_cases hp : s.hasPrompts <;> simp [hp] at he <;> casesm* _ ∨ _ <;>
      simp_all [Event.index]
  | cons t pre' ih =>
    have hpass' : ∀ u ∈ pre', u.passes := fun u hu =>
      hpass u (List.mem_cons_of_mem t hu)
    obtain ⟨h1, h2⟩ := ih (i := i + 1) hpass'
    have ht : t.passes := hpass t (List.mem_cons_self t pre')
    have harith : (i + 1) + pre'.length = i + (t :: pre').length := by
      simp [List.length_cons]; omega
    by_cases htsk : t.isSkip
    · rw [List.cons_append, runSteps_skip t _ i htsk]
      refine ⟨h1, ?_⟩
      intro e he
      by_cases hp : t.hasPrompts <;> simp [hp] at he <;> casesm* _ ∨ _ <;>
        first
          | simp_all [Event.index]
          | (have h3 := h2 e (by assumption); omega)
    · have htsk' : t.isSkip = false := Bool.eq_false_iff.mpr htsk
      have hok : t.runResult.result_type ≠ ResultType.failed := by
        rcases ht with h | h
        · exact absurd h htsk
        · exact h
      rw [List.cons_append, runSteps_pass t _ i htsk' hok]
      refine ⟨h1, ?_⟩
      intro e he
      by_cases hp : t.hasPrompts <;> simp [hp] at he <;> casesm* _ ∨ _ <;>
        first
          | simp_all [Event.index]
          | (have h3 := h2 e (by assumption); omega)

/-- No `run` event is ever emitted for a plan position holding a skipped step,
wherever the loop starts. -/
theorem runStep_not_mem_of_skip_at (plan : List StepSpec) (j i : Nat)
    (s : StepSpec) (hget : plan[i]? = some s) (hskip : s.isSkip = true) :
    Event.runStep (j + i) ∉ (runSteps plan j).1 := by
  induction plan generalizing j i with
  | nil => simp [runSteps]
  | cons t rest ih =>
    intro hmem
    cases i with
    | zero =>
      have hts : t.isSkip = true := by
        simp at hget; rw [hget]; exact hskip
      rw [runSteps_skip t rest j hts] at hmem
      by_cases hp : t.hasPrompts <;> simp [hp] at hmem <;>
        exact runStep_not_mem_later rest j (by simpa using hmem)
    | succ i' =>
      have hget' : rest[i']? = some s := by simpa using hget
      have harith : j + (i' + 1) = (j + 1) + i' := by omega
      rw [harith] at hmem
      have hnot := ih (j := j + 1) (i := i') hget'
      by_cases hts : t.isSkip
      · rw [runSteps_skip t rest j hts] at hmem
        by_cases hp : t.hasPrompts <;> simp [hp] at hmem <;>
          first
            | omega
            | exact hnot hmem
            | (rcases hmem with heq | hm
               · omega
               · exact hnot hm)
      · have hts' : t.isSkip = false := Bool.eq_false_iff.mpr hts
        by_cases htf : t.runResult.result_type = ResultType.failed
        · rw [runSteps_fail t rest j hts' htf] at hmem
          by_cases hp : t.hasPrompts <;> simp [hp] at hmem <;>
            first
              | omega
              | exact hnot hmem
        · rw [runSteps_pass t rest j hts' htf] at hmem
          by_cases hp : t.hasPrompts <;> simp [hp] at hmem <;>
            first
              | omega
              | exact hnot hmem
              | (rcases hmem with heq | hm
                 · omega
                 · exact hnot hm)

end Sunbeam

/-- C2: on the fixture interface configuration, `get_free_nics` excludes the
configured interfaces eth0/eth1/bond1, the bond members eth2/eth3/eth5/eth6,
and the virtual interface ovs-system, returning exactly `["eth4", "bond0"]` in
interface-enumeration order. -/
theorem C2_get_free_nics_fixture :
    Sunbeam.get_free_nics Sunbeam.fixtureNetEnv = ["eth4", "bond0"] := by
  decide

open Sunbeam

/-- C1: the configure runner executes steps in order and halts at the first
step whose `run` returns a `FAILED` result: the loop's outcome is a
`ClickException` carrying that step's message, the process exit code is
non-zero, and no event at all — prompt, skip check, or run — is emitted for
any step after the failing one. -/
theorem C1_runner_halts_at_first_failure
    (pre : List StepSpec) (s : StepSpec) (post : List StepSpec)
    (hpass : ∀ t ∈ pre, t.passes)
    (hs : s.isSkip = false)
    (hf : s.runResult.result_type = ResultType.failed) :
    runOutcome (pre ++ s :: post) = .error s.runResult.message ∧
    clickExitCode (runOutcome (pre ++ s :: post)) ≠ 0 ∧
    ∀ e ∈ runTrace (pre ++ s :: post), e.index ≤ pre.length := by
  obtain ⟨h1, h2⟩ := runSteps_halts_first_failure pre s post 0 hpass hs hf
  refine ⟨h1, ?_, ?_⟩
  · have : runOutcome (pre ++ s :: post) = .error s.runResult.message := h1
    rw [this]
    simp [clickExitCode]
  · intro e he
    simpa using h2 e he

/-- Witness for C1 at the concrete plan
`[sampleOkStep, sampleFailStep, sampleAfterStep]`. -/
theorem C1_runner_halts_witness :
    runOutcome [sampleOkStep, sampleFailStep, sampleAfterStep] =
      .error (some "tf apply failed") ∧
    clickExitCode (runOutcome [sampleOkStep, sampleFailStep, sampleAfterStep]) ≠ 0 := by
  have h := C1_runner_halts_at_first_failure [sampleOkStep] sampleFailStep
    [sampleAfterStep] (by decide) (by decide) (by decide)
  exact ⟨h.1, h.2.1⟩

/-- C4: a step whose `is_skip` returns true never has its `run` invoked
(whatever its position in the plan), and when the loop reaches such a step it
prints `done` for it and continues, its overall outcome being that of the
remaining steps. -/
theorem C4_skip_means_no_run :
    (∀ plan i s, plan[i]? = some s → s.isSkip = true →
        Event.runStep i ∉ runTrace plan) ∧
    (∀ (s : StepSpec) rest i, s.isSkip = true →
        Event.printDone i ∈ (runSteps (s :: rest) i).1 ∧
        (runSteps (s :: rest) i).2 = (runSteps rest (i + 1)).2) := by
  constructor
  · intro plan i s hget hskip
    have h := runStep_not_mem_of_skip_at plan 0 i s hget hskip
    simpa using h
  · intro s rest i hskip
    rw [runSteps_skip s rest i hskip]
    constructor
    · simp
    · rfl

/-- Witness for C4 at the concrete plan `[sampleSkipStep, sampleOkStep]`. -/
theorem C4_skip_means_no_run_witness :
    Event.runStep 0 ∉ runTrace [sampleSkipStep, sampleOkStep] ∧
    Event.printDone 0 ∈ (runSteps [sampleSkipStep, sampleOkStep] 0).1 ∧
    (runSteps [sampleSkipStep, sampleOkStep] 0).2 =
      (runSteps [sampleOkStep] 1).2 := by
  have h := C4_skip_means_no_run
  exact ⟨h.1 [sampleSkipStep, sampleOkStep] 0 sampleSkipStep (by rfl) (by decide),
         h.2 sampleSkipStep [sampleOkStep] 0 (by decide)⟩

/-- C5: for a step that declares prompts, the loop's first five events are, in
order: entering the status context, suspending the status output, the prompt
phase, resuming the status output, and only then the `is_skip` check; when the
step is not skipped the very next event is its `run`, and when it is skipped
`run` is never invoked — so the prompt phase executes even for a step that is
subsequently skipped. -/
theorem C5_prompt_before_skip_before_run
    (s : StepSpec) (rest : List StepSpec) (i : Nat)
    (hp : s.hasPrompts = true) :
    ((runSteps (s :: rest) i).1).take 5 =
      [Event.enterStatus i, Event.stopStatus i, Event.promptStep i,
       Event.startStatus i, Event.skipCheck i] ∧
    (s.isSkip = false → ((runSteps (s :: rest) i).1)[5]? = some (Event.runStep i)) ∧
    (s.isSkip = true → Event.runStep i ∉ (runSteps (s :: rest) i).1) := by
  refine ⟨?_, ?_, ?_⟩
  · by_cases hsk : s.isSkip
    · rw [runSteps_skip s rest i hsk]; simp [hp]
    · have hsk' : s.isSkip = false := Bool.eq_false_iff.mpr hsk
      by_cases hf : s.runResult.result_type = ResultType.failed
      · rw [runSteps_fail s rest i hsk' hf]; simp [hp]
      · rw [runSteps_pass s rest i hsk' hf]; simp [hp]
  · intro hsk
    by_cases hf : s.runResult.result_type = ResultType.failed
    · rw [runSteps_fail s rest i hsk hf]; simp [hp]
    · rw [runSteps_pass s rest i hsk hf]; simp [hp]
  · intro hsk
    rw [runSteps_skip s rest i hsk]
    simp [hp]
    exact fun hcontra => runStep_not_mem_later rest i (by simpa using hcontra)

/-- Witness for C5 at the concrete prompting, skipped step `sampleSkipStep`. -/
theorem C5_prompt_before_skip_witness :
    ((runSteps [sampleSkipStep] 0).1).take 5 =
      [Event.enterStatus 0, Event.stopStatus 0, Event.promptStep 0,
       Event.startStatus 0, Event.skipCheck 0] ∧
    Event.runStep 0 ∉ (runSteps [sampleSkipStep] 0).1 := by
  have h := C5_prompt_before_skip_before_run sampleSkipStep [] 0 (by decide)
  exact ⟨h.1, h.2.2 (by decide)⟩

/-- C3 counterexample: when the `terraform output -json` subprocess succeeds
but prints malformed JSON, `json.loads` raises `json.JSONDecodeError`, which
`UserOpenRCStep.run`'s `except subprocess.CalledProcessError` clause does not
catch — the exception escapes `run` instead of becoming a `FAILED` Result. -/
theorem C3_run_raises_on_bad_json :
    UserOpenRCStep_run badJsonEnv =
      .error (.jsonDecodeError "Expecting value: line 1 column 1 (char 0)") := by
  rfl

/-- C3 as amended: `run` converts exactly its declared exception —
`subprocess.CalledProcessError` for `UserOpenRCStep`, `TerraformException` for
`ConfigureCloudStep` — into a `FAILED` Result carrying `str(e)`, and never
lets that exception kind escape; other exceptions propagate past `run`. -/
theorem C3_declared_exceptions_become_failed_results :
    (∀ (env : UserOpenRCEnv) (m : String),
        userOpenRCBody env = .error (.calledProcessError m) →
          UserOpenRCStep_run env = .ok ⟨.failed, some m⟩) ∧
    (∀ (env : UserOpenRCEnv) (e : PyExn),
        UserOpenRCStep_run env = .error e →
          ∀ m, e ≠ .calledProcessError m) ∧
    (∀ (applyResult : Except PyExn Unit) (m : String),
        applyResult = .error (.terraformException m) →
          ConfigureCloudStep_run applyResult = .ok ⟨.failed, some m⟩) ∧
    (∀ (applyResult : Except PyExn Unit) (e : PyExn),
        ConfigureCloudStep_run applyResult = .error e →
          ∀ m, e ≠ .terraformException m) := by
  refine ⟨?_, ?_, ?_, ?_⟩
  · intro env m h
    simp [UserOpenRCStep_run, h]
  · intro env e h m hcontra
    subst hcontra
    unfold UserOpenRCStep_run at h
    rcases hb : userOpenRCBody env with exn | v <;> rw [hb] at h
    · rcases exn <;> simp at h
    · exact Except.noConfusion h
  · intro applyResult m h
    simp [ConfigureCloudStep_run, h]
  · intro applyResult e h m hcontra
    subst hcontra
    unfold ConfigureCloudStep_run at h
    rcases applyResult with exn | v
    · rcases exn <;> simp at h
    · exact Except.noConfusion h

/-- Witness for the amended C3 at the concrete environments
`calledProcessErrorEnv` and a failing `tfhelper.apply`. -/
theorem C3_declared_exceptions_witness :
    UserOpenRCStep_run calledProcessErrorEnv =
      .ok ⟨.failed, some "Command terraform returned non-zero exit status 1."⟩ ∧
    ConfigureCloudStep_run (.error (.terraformException "terraform apply failed")) =
      .ok ⟨.failed, some "terraform apply failed"⟩ := by
  have h := C3_declared_exceptions_become_failed_results
  exact ⟨h.1 calledProcessErrorEnv _ (by rfl),
         h.2.2.1 (.error (.terraformException "terraform apply failed")) _ (by rfl)⟩

/-- C6: function `_retrieve_admin_credentials` raises a `click.ClickException` if and
only if the response's `return-code` (default 0 when missing) exceeds 1;
otherwise it returns exactly the eight `OS_`-prefixed keys, in order, with the
values taken from the response fields (`OS_AUTH_URL` from `public-endpoint`,
both version keys from `api-version`). -/
theorem C6_admin_credentials_retrieval (a : Sunbeam.ActionResult) :
    ((∃ msg, retrieve_admin_credentials a = .error msg) ↔ a.returnCode.getD 0 > 1) ∧
    (∀ creds, retrieve_admin_credentials a = .ok creds →
        creds.map Prod.fst =
          ["OS_USERNAME", "OS_PASSWORD", "OS_AUTH_URL", "OS_USER_DOMAIN_NAME",
           "OS_PROJECT_DOMAIN_NAME", "OS_PROJECT_NAME", "OS_AUTH_VERSION",
           "OS_IDENTITY_API_VERSION"] ∧
        creds = [("OS_USERNAME", a.username),
                 ("OS_PASSWORD", a.password),
                 ("OS_AUTH_URL", a.publicEndpoint),
                 ("OS_USER_DOMAIN_NAME", a.userDomainName),
                 ("OS_PROJECT_DOMAIN_NAME", a.projectDomainName),
                 ("OS_PROJECT_NAME", a.projectName),
                 ("OS_AUTH_VERSION", a.apiVersion),
                 ("OS_IDENTITY_API_VERSION", a.apiVersion)]) := by
  constructor
  · constructor
    · rintro ⟨msg, hmsg⟩
      by_cases h : a.returnCode.getD 0 > 1
      · exact h
      · simp [retrieve_admin_credentials, h] at hmsg
    · intro h
      refine ⟨"Unable to retrieve openrc from Keystone service", ?_⟩
      simp [retrieve_admin_credentials, h]
  · intro creds hcreds
    by_cases h : a.returnCode.getD 0 > 1
    · simp [retrieve_admin_credentials, h] at hcreds
    · simp [retrieve_admin_credentials, h] at hcreds
      subst hcreds
      constructor <;> rfl

/-- Witness for C6 at the sample successful `get-admin-account` response. -/
theorem C6_admin_credentials_witness :
    retrieve_admin_credentials sampleActionResult =
      .ok [("OS_USERNAME", some "admin"),
           ("OS_PASSWORD", some "sekrit"),
           ("OS_AUTH_URL", some "http://10.0.0.5:5000"),
           ("OS_USER_DOMAIN_NAME", some "admin_domain"),
           ("OS_PROJECT_DOMAIN_NAME", some "admin_domain"),
           ("OS_PROJECT_NAME", some "admin"),
           ("OS_AUTH_VERSION", some "3"),
           ("OS_IDENTITY_API_VERSION", some "3")] ∧
    [("OS_USERNAME", some "admin"),
     ("OS_PASSWORD", some "sekrit"),
     ("OS_AUTH_URL", some "http://10.0.0.5:5000"),
     ("OS_USER_DOMAIN_NAME", some "admin_domain"),
     ("OS_PROJECT_DOMAIN_NAME", some "admin_domain"),
     ("OS_PROJECT_NAME", some "admin"),
     ("OS_AUTH_VERSION", some "3"),
     ("OS_IDENTITY_API_VERSION", some "3")].map Prod.fst =
      ["OS_USERNAME", "OS_PASSWORD", "OS_AUTH_URL", "OS_USER_DOMAIN_NAME",
       "OS_PROJECT_DOMAIN_NAME", "OS_PROJECT_NAME", "OS_AUTH_VERSION",
       "OS_IDENTITY_API_VERSION"] := by
  have h := C6_admin_credentials_retrieval sampleActionResult
  have hok := h.2
    [("OS_USERNAME", some "admin"),
     ("OS_PASSWORD", some "sekrit"),
     ("OS_AUTH_URL", some "http://10.0.0.5:5000"),
     ("OS_USER_DOMAIN_NAME", some "admin_domain"),
     ("OS_PROJECT_DOMAIN_NAME", some "admin_domain"),
     ("OS_PROJECT_NAME", some "admin"),
     ("OS_AUTH_VERSION", some "3"),
     ("OS_IDENTITY_API_VERSION", some "3")] (by rfl)
  exact ⟨by rfl, hok.1⟩

/-- C7: every file the program persists — the answer bank, the Terraform
variables JSON, the generated openrc and the generated clouds.yaml — is
written with mode 0o640: no permission bits for others. -/
theorem C7_persisted_files_restrict_others :
    Sunbeam.persistedFileModes.all (fun m => m % 8 == 0) = true := by
  decide

/-- C8: the generated openrc text is the `# openrc for <user>` comment line
followed by exactly the expected `export KEY=value` lines, newline-separated,
in the order OS_AUTH_URL, OS_USERNAME, OS_PASSWORD, OS_USER_DOMAIN_NAME,
OS_PROJECT_DOMAIN_NAME, OS_PROJECT_NAME, OS_AUTH_VERSION,
OS_IDENTITY_API_VERSION. -/
theorem C8_openrc_export_lines (auth_url auth_version : String) (tf : Sunbeam.TfOutput) :
    openrcText auth_url auth_version tf =
      "# openrc for " ++ tf.OS_USERNAME ++ "\n" ++
        String.intercalate "\n" (expectedOpenrcExports auth_url auth_version tf) := by
  simp only [openrcText, expectedOpenrcExports, String.intercalate,
             String.intercalate.go, String.append_assoc]

/-- C9: the final access message `launch` prints is the literal, unformatted
string of launch.py:170 — it does not depend on the computed key path or the
allocated floating IP, and the placeholders `{key_path}` and
`{ip.floating_ip_address}` appear verbatim in it. -/
theorem C9_launch_message_unformatted
    (key_path floating_ip key_path' floating_ip' : String) :
    launchAccessMessage key_path floating_ip =
      launchAccessMessage key_path' floating_ip' ∧
    ("\x7bkey_path\x7d".toList).IsInfix
      (launchAccessMessage key_path floating_ip).toList ∧
    ("\x7bip.floating_ip_address\x7d".toList).IsInfix
      (launchAccessMessage key_path floating_ip).toList := by
  have hconst : launchAccessMessage key_path floating_ip =
      launchAccessMessage "" "" := rfl
  refine ⟨rfl, ?_, ?_⟩ <;> rw [hconst] <;> decide

/-- C10: function `get_free_nic` is total: it returns the head of `get_free_nics` when
that list is non-empty and the empty string otherwise. -/
theorem C10_get_free_nic_total (env : Sunbeam.NetEnv) :
    (Sunbeam.get_free_nics env = [] → Sunbeam.get_free_nic env = "") ∧
    ∀ n rest, Sunbeam.get_free_nics env = n :: rest →
      Sunbeam.get_free_nic env = n := by
  constructor
  · intro h
    simp [Sunbeam.get_free_nic, h]
  · intro n rest h
    simp [Sunbeam.get_free_nic, h]

/-- Witness for C10 at the fixture environment, whose free-NIC list is
`["eth4", "bond0"]`. -/
theorem C10_get_free_nic_witness :
    Sunbeam.get_free_nic Sunbeam.fixtureNetEnv = "eth4" := by
  exact (C10_get_free_nic_total Sunbeam.fixtureNetEnv).2 "eth4" ["bond0"] (by decide)
